import Mathlib

/-!
Verification of the procedural button-surface compositor and its surface
cache (`scripts/game_structure/ui_button.py`).

Surfaces are modelled as a pair of dimensions together with a total pixel
function; `pygame.draw.rect` and `Surface.blit` are embedded as per-pixel
updates clipped to the destination.  All colors produced by the compositor
are either fully transparent (alpha 0) or fully opaque (alpha 255), so
`blit`'s alpha compositing specialises exactly to "copy the source pixel
unless it is fully transparent".
-/

/-- An RGBA color, one byte per channel. -/
structure Color where
  r : Nat
  g : Nat
  b : Nat
  a : Nat
deriving DecidableEq, Repr

/-- The fully transparent pixel `(0, 0, 0, 0)` that a fresh
`pygame.Surface(..., SRCALPHA)` is filled with. -/
def Color.clear : Color := ⟨0, 0, 0, 0⟩

/-- The opaque black pixel `(0, 0, 0, 255)` that a fresh `pygame.Surface`
without per-pixel alpha is filled with, and that `_Symbol.load` rewrites. -/
def Color.black : Color := ⟨0, 0, 0, 255⟩

/-- A pygame surface: a width, a height, and a pixel at every coordinate.
Coordinates outside `[0, w) × [0, h)` are junk and never constrained. -/
structure LSurface where
  w : Nat
  h : Nat
  px : Nat → Nat → Color

/-- `pygame.Surface((w, h), pygame.SRCALPHA)`: transparent everywhere. -/
def alphaSurface (w h : Nat) : LSurface := ⟨w, h, fun _ _ => Color.clear⟩

/-- `pygame.Surface((w, h))` without SRCALPHA: opaque black everywhere. -/
def plainSurface (w h : Nat) : LSurface := ⟨w, h, fun _ _ => Color.black⟩

/-- `pygame.draw.rect(s, c, (x, y, rw, rh))`: paint `c` on every pixel of
the rectangle, clipped to the surface; a non-positive `rw`/`rh` paints
nothing. -/
def drawRect (s : LSurface) (c : Color) (x y rw rh : Int) : LSurface :=
  { s with px := fun i j =>
      if i < s.w ∧ j < s.h ∧ x ≤ (i : Int) ∧ (i : Int) < x + rw
          ∧ y ≤ (j : Int) ∧ (j : Int) < y + rh
      then c else s.px i j }

/-- `dst.blit(src, (ox, oy))`, specialised to sources whose pixels are
fully opaque or fully transparent: inside the clipped source rectangle a
pixel of nonzero alpha replaces the destination, a fully transparent pixel
leaves it unchanged. -/
def blit (dst src : LSurface) (ox oy : Int) : LSurface :=
  { dst with px := fun i j =>
      if i < dst.w ∧ j < dst.h ∧ ox ≤ (i : Int) ∧ (i : Int) < ox + src.w
          ∧ oy ≤ (j : Int) ∧ (j : Int) < oy + src.h
          ∧ (src.px ((i : Int) - ox).toNat ((j : Int) - oy).toNat).a ≠ 0
      then src.px ((i : Int) - ox).toNat ((j : Int) - oy).toNat
      else dst.px i j }

/-- `pygame.transform.rotate(s, 90)`: counterclockwise quarter turn. -/
def rot90 (s : LSurface) : LSurface :=
  ⟨s.h, s.w, fun i j => s.px (s.w - 1 - j) i⟩

/-- `pygame.transform.flip(s, fx, fy)`. -/
def flipS (s : LSurface) (fx fy : Bool) : LSurface :=
  ⟨s.w, s.h, fun i j =>
    s.px (if fx then s.w - 1 - i else i) (if fy then s.h - 1 - j else j)⟩

/-- Python list indexing `p[i]` on the concrete 5-entry palettes (always in
bounds at every call site). -/
def pidx (p : List Color) (i : Nat) : Color := p.getD i Color.clear

/-- Python list indexing into the 4-entry corner/shadow flag lists. -/
def bidx (l : List Bool) (i : Nat) : Bool := l.getD i false

namespace Palette

/-- `Palette.palette`, the default 5-color table
`[transparent, outline, inline, fill, shadow]`. -/
def palette : List Color :=
  [⟨0, 0, 0, 0⟩, ⟨47, 41, 24, 255⟩, ⟨121, 96, 69, 255⟩,
   ⟨101, 89, 52, 255⟩, ⟨87, 76, 45, 255⟩]

/-- `Palette.hover`. -/
def hover : List Color :=
  [⟨0, 0, 0, 0⟩, ⟨14, 11, 4, 255⟩, ⟨41, 27, 15, 255⟩,
   ⟨30, 24, 9, 255⟩, ⟨23, 18, 7, 255⟩]

/-- `Palette.unavailable`. -/
def unavailable : List Color :=
  [⟨0, 0, 0, 0⟩, ⟨58, 56, 51, 255⟩, ⟨112, 107, 100, 255⟩,
   ⟨92, 88, 80, 255⟩, ⟨80, 78, 70, 255⟩]

end Palette

/-- The palette selection performed in `RectButton.__init__`:
`if unavailable: ... elif hover: ... else: ...`. -/
def selectPalette (hover unavailable : Bool) : List Color :=
  if unavailable then Palette.unavailable
  else if hover then Palette.hover
  else Palette.palette

/-- `COLOR`, the accent color, as `pygame.Color((239, 229, 0))`
(alpha defaults to 255). -/
def accentColor : Color := ⟨239, 229, 0, 255⟩

/-- `pygame.PixelArray(surface).replace(old, new)`: rewrite every pixel
equal to `old` to `new`, leaving all other pixels unchanged
(the color-substitution pass of `_Symbol.load`). -/
def replaceColor (s : LSurface) (old new : Color) : LSurface :=
  { s with px := fun i j => if s.px i j = old then new else s.px i j }

/-- `_Symbol.load`'s recoloring pass on an already-loaded base image:
replace opaque black by the accent color. -/
def symbolRecolor (s : LSurface) : LSurface :=
  replaceColor s Color.black accentColor

/-! ### The surface cache (`ButtonCache`) -/

/-- The seven-field descriptor a cached surface is stored and looked up
under; equality is field-by-field, with the list fields compared
element-wise (Python `==`). -/
structure ButtonKey where
  size : Nat × Nat
  text : String
  hover : Bool
  unavailable : Bool
  rounded_corners : List Bool
  shadows : List Bool
  hanging : Bool
deriving DecidableEq, Repr

/-- Default argument `rounded_corners=[True, True, True, True]`. -/
def defaultRounded : List Bool := [true, true, true, true]

/-- Default argument `shadows=[True, True, False, False]`. -/
def defaultShadows : List Bool := [true, true, false, false]

namespace ButtonCache

/-- `ButtonCache.load_button`: linear scan of the storage list, comparing
all seven descriptor fields; the first matching entry's surface is
returned (`obj[0]`), and `False` — here `none` — when nothing matches.
The cache holds values of an arbitrary type, as the Python list does. -/
def loadButton {α : Type} (storage : List (ButtonKey × α)) (k : ButtonKey) :
    Option α :=
  (storage.find? (fun e => decide (e.1 = k))).map (·.2)

/-- `ButtonCache.store_button`: append the `(descriptor, surface)` entry to
the storage list and hand the surface back unchanged. -/
def storeButton {α : Type} (storage : List (ButtonKey × α)) (k : ButtonKey)
    (img : α) : List (ButtonKey × α) × α :=
  (storage ++ [(k, img)], img)

end ButtonCache

/-! ### Style resolution (`_Style`), backed by `resources/styles.json` -/

/-- A value of the style table: the JSON holds booleans or lists of four
booleans. -/
inductive StyleVal where
  | b (v : Bool)
  | l (v : List Bool)
deriving DecidableEq, Repr

/-- Association-list lookup standing for `dict.get`. -/
def tblGet {α : Type} (tbl : List (String × α)) (key : String) : Option α :=
  (tbl.find? (fun e => decide (e.1 = key))).map (·.2)

/-- `_Style.check_round`: a 4-element list is returned as is, a boolean is
broadcast to all four corners, anything else (missing identifier included)
falls back to `[True, True, True, True]`. -/
def checkRound (tbl : List (String × StyleVal)) (oid : Option String) :
    List Bool :=
  match oid.bind (tblGet tbl) with
  | some (.l v) => if v.length = 4 then v else defaultRounded
  | some (.b v) => [v, v, v, v]
  | none => defaultRounded

/-- `_Style.check_hanging`: the table's boolean, defaulting to `False`. -/
def checkHanging (tbl : List (String × Bool)) (oid : Option String) : Bool :=
  match oid.bind (tblGet tbl) with
  | some v => v
  | none => false

/-- `_Style.check_shadow`: only an explicit 4-element list is accepted; any
other shape falls back to `[True, True, False, False]`. -/
def checkShadow (tbl : List (String × StyleVal)) (oid : Option String) :
    List Bool :=
  match oid.bind (tblGet tbl) with
  | some (.l v) => if v.length = 4 then v else defaultShadows
  | some _ => defaultShadows
  | none => defaultShadows

/-! ### The facade (`UIButton.__init__`) cache interplay -/

/-- The descriptor `UIButton.__init__` looks up before compositing:
`ButtonCache.load_button(size=relative_rect.size, text=self.text)` — every
other field is left at its default. -/
def uiLookupKey (size : Nat × Nat) (text : String) : ButtonKey :=
  ⟨size, text, false, false, defaultRounded, defaultShadows, false⟩

/-- The descriptor `UIButton.__init__` stores under on a miss:
size, text, and the style resolved by `_Style` (hover and unavailable stay
at their defaults). -/
def uiStoreKey (size : Nat × Nat) (text : String)
    (rounded shadows : List Bool) (hanging : Bool) : ButtonKey :=
  ⟨size, text, false, false, rounded, shadows, hanging⟩

/-- `UIButton.__init__`, lines 348–369: resolve the style for the object
id, resolve the label (an explicit `text` wins, otherwise the external
localization collaborator's answer `langText` is used), try the cache, and
on a miss store the freshly rendered surface.  `render` stands for
`Button.new`; the function returns the updated storage and the sprite. -/
def uiButtonConstruct {α : Type} (render : ButtonKey → α)
    (styleRound styleShadow : List (String × StyleVal))
    (styleHanging : List (String × Bool))
    (storage : List (ButtonKey × α)) (size : Nat × Nat)
    (text langText : String) (oid : Option String) :
    List (ButtonKey × α) × α :=
  let rounded := checkRound styleRound oid
  let hanging := checkHanging styleHanging oid
  let shadows := checkShadow styleShadow oid
  let label := if text ≠ "" then text else langText
  match ButtonCache.loadButton storage (uiLookupKey size label) with
  | some img => (storage, img)
  | none =>
      let k := uiStoreKey size label rounded shadows hanging
      ButtonCache.storeButton storage k (render k)

/-! ### `Button.new` argument validation -/

/-- A Python value passed as `rounded_corners` or `shadows`: a boolean, a
list, or some other object (one that is neither, e.g. an integer). -/
inductive PyStyleArg where
  | pbool (b : Bool)
  | plist (l : List Bool)
  | pother
deriving DecidableEq, Repr

/-- The Python exceptions the guard can produce. -/
inductive PyErr where
  | valueError
  | typeError
deriving DecidableEq, Repr

/-- The validation block of `Button.new` for one style argument:

    if isinstance(arg, bool): arg = [arg]*4
    elif not isinstance(arg, list) and len(arg) != 4:
        raise ValueError(...)

A boolean is broadcast; for a list, `not isinstance(arg, list)` is false so
the `and` short-circuits and the list passes through whatever its length;
for any other object `len(arg)` itself raises `TypeError`. -/
def buttonNewNormalize : PyStyleArg → Except PyErr (List Bool)
  | .pbool b => .ok [b, b, b, b]
  | .plist l => .ok l
  | .pother => .error .typeError

/-! ### The tile pieces (`RectButton._corner`, `SquareButton._corner`,
`RectButton._edge`) -/

/-- Truncation toward zero of `n / 2`, i.e. Python `int(n / 2)` — the float
`n / 2` is exactly representable, so truncating it is exact integer
arithmetic.  Every numerator below is even, so `Int` division is exact. -/
def truncHalf (n : Int) : Int :=
  if n % 2 = 0 then n / 2
  else if 0 < n then (n - 1) / 2 else (n + 1) / 2

/-- Python `round(n / 2)`: round-half-to-even (banker's rounding) of the
exactly representable float `n / 2`.  For odd `n` the value is
`m + 1/2` with `m = ⌊n / 2⌋`, which rounds to `m` when `m` is even and to
`m + 1` when `m` is odd. -/
def roundHalf (n : Int) : Int :=
  if n % 2 = 0 then n / 2
  else
    let m := (n - 1) / 2
    if m % 2 = 0 then m else m + 1

namespace RectButton

/-- `RectButton._edge(length, rotate, flip, shadow)`: a 3-band strip —
outline (rows 0–1), inline (rows 2–3), fill or shadow (rows 4–5) — with
the parity fixup `if round(length/2) != int(length/2): if not rotate:
length += 1; odd = True`, the clamp of non-positive lengths to zero, the
trimming of the inline and fill bands by one pixel when `odd`, and the
final rotation/flip. -/
def edge (p : List Color) (len : Int) (rotate flip shadow : Bool) :
    LSurface :=
  let mismatch := roundHalf len ≠ truncHalf len
  let len1 := if mismatch ∧ rotate = false then len + 1 else len
  let odd := mismatch ∧ rotate = false
  let len2 := if len1 ≤ 0 then 0 else len1
  let s := alphaSurface len2.toNat 6
  let s := drawRect s (pidx p 1) 0 0 len2 2
  let s := drawRect s (pidx p 2) 0 2 (if odd then len2 - 1 else len2) 2
  let s :=
    if shadow then drawRect s (pidx p 4) 0 4 (if odd then len2 - 1 else len2) 2
    else drawRect s (pidx p 3) 0 4 (if odd then len2 - 1 else len2) 2
  if rotate ∧ flip then flipS (rot90 s) true false
  else if rotate then rot90 s
  else if flip then flipS s false true
  else s

/-- `RectButton._corner(shadow_corner1, shadow_corner2, rounded)`: a 10×8
tile; the rounded variant draws the staircase outline/inline and a fill
cell that turns into shadow when both adjacent edges are shadowed, the
square variant an L-shaped outline/inline/fill with per-edge shadow. -/
def corner (p : List Color) (shadowCorner1 shadowCorner2 rounded : Bool) :
    LSurface :=
  let s := alphaSurface 10 8
  if rounded then
    let s := drawRect s (pidx p 1) 6 2 4 2
    let s := drawRect s (pidx p 1) 4 4 2 2
    let s := drawRect s (pidx p 1) 2 6 2 2
    let s := drawRect s (pidx p 2) 6 4 4 2
    let s := drawRect s (pidx p 2) 4 6 2 2
    if shadowCorner1 ∧ shadowCorner2 then drawRect s (pidx p 4) 6 6 4 2
    else drawRect s (pidx p 3) 6 6 4 2
  else
    let s := drawRect s (pidx p 1) 0 0 10 2
    let s := drawRect s (pidx p 1) 0 0 2 8
    let s := drawRect s (pidx p 2) 2 2 8 2
    let s := drawRect s (pidx p 2) 2 2 2 6
    let s := drawRect s (pidx p 3) 4 4 6 2
    let s := if shadowCorner1 then drawRect s (pidx p 4) 4 4 6 2 else s
    if shadowCorner2 then drawRect s (pidx p 4) 4 4 2 4 else s

end RectButton

namespace SquareButton

/-- `SquareButton._corner`: overrides only the rounded variant; the square
variant is identical to `RectButton._corner`'s. -/
def corner (p : List Color) (shadowCorner1 shadowCorner2 rounded : Bool) :
    LSurface :=
  let s := alphaSurface 10 8
  if rounded then
    let s := drawRect s (pidx p 1) 4 0 6 2
    let s := drawRect s (pidx p 1) 2 2 2 2
    let s := drawRect s (pidx p 1) 0 4 2 4
    let s := drawRect s (pidx p 3) 4 4 4 4
    let s := drawRect s (pidx p 2) 4 2 6 2
    let s := drawRect s (pidx p 2) 2 4 4 2
    let s := drawRect s (pidx p 2) 2 4 2 4
    if shadowCorner1 then
      drawRect (drawRect s (pidx p 4) 6 4 4 2) (pidx p 4) 4 6 2 2
    else if shadowCorner2 then
      drawRect (drawRect s (pidx p 4) 4 6 2 2) (pidx p 4) 6 4 2 2
    else s
  else
    let s := drawRect s (pidx p 1) 0 0 10 2
    let s := drawRect s (pidx p 1) 0 0 2 8
    let s := drawRect s (pidx p 2) 2 2 8 2
    let s := drawRect s (pidx p 2) 2 2 2 6
    let s := drawRect s (pidx p 3) 4 4 6 2
    let s := if shadowCorner1 then drawRect s (pidx p 4) 4 4 6 2 else s
    if shadowCorner2 then drawRect s (pidx p 4) 4 4 2 4 else s

end SquareButton

/-! ### The hanging band and the text composer -/

namespace RectButton

/-- The 10×6 three-tone rope connector of `RectButton._hang`, drawn on a
surface without per-pixel alpha with the **default** palette's inline,
shadow and fill tones (`Palette.palette`, not `self.palette`). -/
def connector : LSurface :=
  let s := plainSurface 10 6
  let s := drawRect s (pidx Palette.palette 2) 0 0 10 6
  let s := drawRect s (pidx Palette.palette 4) 2 0 6 6
  drawRect s (pidx Palette.palette 3) 4 0 2 6

/-- `RectButton._hang`: extend the canvas 6px upward (a new surface of
height `bh + 6`), blit the already-built body at `(0, 6)`, and blit the
two rope connectors at `(12, 0)` and `(size[0] - 22, 0)`. -/
def hang (body : LSurface) (bw bh : Nat) : LSurface :=
  let s := alphaSurface bw (bh + 6)
  let s := blit s body 0 6
  let s := blit s connector 12 0
  blit s connector ((bw : Int) - 22) 0

end RectButton

/-- The label placement of `RectButton._build`:
`self.text.get_rect(center=(...))` followed by the blit at the rect's top
left.  pygame truncates the float center to an integer and subtracts half
the label size (`w >> 1`), so for the non-negative quantities involved the
top left is `center − size/2` in floor arithmetic. -/
def labelPos (bw bh : Nat) (hanging symbol : Bool) (tw th : Nat) :
    Int × Int :=
  if hanging then
    ((bw : Int) / 2 + 1 - (tw : Int) / 2, (bh : Int) / 2 + 2 + 6 - (th : Int) / 2)
  else if symbol then
    ((bw : Int) / 2 - (tw : Int) / 2, (bh : Int) / 2 - (th : Int) / 2)
  else
    ((bw : Int) / 2 + 1 - (tw : Int) / 2, (bh : Int) / 2 + 2 - (th : Int) / 2)

/-- The character `{`. -/
def openBraceC : Char := Char.ofNat 123

/-- The character `}`. -/
def closeBraceC : Char := Char.ofNat 125

/-- `re.split(r"({|})", line)`: alternating text runs (possibly empty) and
single-character brace delimiters; the result always begins and ends with
a text run. -/
def splitBracesAux : List Char → List Char → List String
  | acc, [] => [String.mk acc.reverse]
  | acc, c :: rest =>
    if c = openBraceC ∨ c = closeBraceC then
      String.mk acc.reverse :: String.mk [c] :: splitBracesAux [] rest
    else splitBracesAux (c :: acc) rest

/-- `re.split(r"({|})", line)` on a string. -/
def splitBraces (line : String) : List String :=
  splitBracesAux [] line.toList

/-- `formatted.append('')` — the accumulator mirrors Python's `formatted`
list in reverse, so its head is `formatted[-1]`. -/
def pushNew (acc : List String) : List String := "" :: acc

/-- `formatted[-1] += tok`. -/
def appendLast (acc : List String) (tok : String) : List String :=
  match acc with
  | h :: t => (h ++ tok) :: t
  | [] => [tok]

/-- `regex[e-1]` with Python indexing: at `e = 0` this is `regex[-1]`, the
last element. -/
def pyPrev (regex : List String) (e : Nat) : Option String :=
  if e = 0 then regex.getLast? else regex[e - 1]?

/-- One iteration of the token-accumulation loop of
`RectButton._build_text`. -/
def formattedStep (regex : List String) (acc : List String) (e : Nat)
    (tok : String) : List String :=
  if tok = "" then acc
  else if tok = String.mk [openBraceC] then appendLast (pushNew acc) tok
  else if pyPrev regex e = some (String.mk [openBraceC]) then
    appendLast acc tok
  else if tok = String.mk [closeBraceC] then pushNew (appendLast acc tok)
  else appendLast acc tok

/-- The token list of one label line: the accumulation loop over the
brace-split runs, followed by `list(filter(None, formatted))`. -/
def buildFormatted (regex : List String) : List String :=
  ((regex.enum.foldl (fun acc pr => formattedStep regex acc pr.1 pr.2)
      [""]).reverse).filter (fun s => s ≠ "")

/-- Rendering of one token: a known glyph token is blitted onto a surface
4px taller (baseline padding below), anything else goes through
`FONT.render` — the external font rasterizer, abstracted as `fontRender`. -/
def renderItem (glyphs : List (String × LSurface))
    (fontRender : String → LSurface) (item : String) : LSurface :=
  match tblGet glyphs item with
  | some g => blit (alphaSurface g.w (g.h + 4)) g 0 0
  | none => fontRender item

/-- One line of the label: concatenate the rendered runs left to right
with no gap on a surface of the summed width and maximal height. -/
def lineSurface (glyphs : List (String × LSurface))
    (fontRender : String → LSurface) (line : String) : LSurface :=
  let formatted := buildFormatted (splitBraces line)
  let surfaces := formatted.map (renderItem glyphs fontRender)
  let widthTemp := (surfaces.map (·.w)).sum
  let heightTemp := (surfaces.map (·.h)).foldl max 0
  (surfaces.foldl
      (fun st t => (blit st.1 t (st.2 : Int) 0, st.2 + t.w))
      (alphaSurface widthTemp heightTemp, 0)).1

namespace RectButton

/-- `RectButton._build_text`: if the whole label is a known glyph token,
return that glyph image directly and flag the button as a single-symbol
button; otherwise split on newlines, render each line, and stack the line
images vertically, each centered against the widest line (pygame truncates
the float position `width/2 - line_width/2`, i.e. floor of the
non-negative `(width - line_width)/2`).  Returns the label surface and the
`symbol` flag. -/
def buildText (glyphs : List (String × LSurface))
    (fontRender : String → LSurface) (text : String) : LSurface × Bool :=
  match tblGet glyphs text with
  | some g => (g, true)
  | none =>
      let texts := (text.splitOn "\n").map (lineSurface glyphs fontRender)
      let width := (texts.map (·.w)).foldl max 0
      let height := (texts.map (·.h)).sum
      ((texts.foldl
          (fun st t =>
            (blit st.1 t (((width - t.w) / 2 : Nat) : Int) (st.2 : Int),
             st.2 + t.h))
          (alphaSurface width height, 0)).1,
       false)

/-- The body chain of `RectButton._build` (lines 681–692 of the source;
shared by `SquareButton`, which overrides only `_corner` — the `square`
flag selects the corner variant): fill the central rectangle, then blit
the four corners (mirrored as needed) and the four edges. -/
def buildBody (square : Bool) (p : List Color) (bw bh : Nat)
    (rc sh : List Bool) : LSurface :=
  let corner := fun s1 s2 r =>
    if square then SquareButton.corner p s1 s2 r else RectButton.corner p s1 s2 r
  let s := alphaSurface bw bh
  let s := drawRect s (pidx p 3) 4 4 ((bw : Int) - 8) ((bh : Int) - 8)
  let s := blit s (corner (bidx sh 0) (bidx sh 1) (bidx rc 0)) 0 0
  let s := blit s (flipS (corner (bidx sh 0) (bidx sh 2) (bidx rc 1)) true false)
    ((bw : Int) - 10) 0
  let s := blit s (flipS (corner (bidx sh 3) (bidx sh 1) (bidx rc 2)) false true)
    0 ((bh : Int) - 8)
  let s := blit s (flipS (corner (bidx sh 3) (bidx sh 2) (bidx rc 3)) true true)
    ((bw : Int) - 10) ((bh : Int) - 8)
  let s := blit s (edge p ((bw : Int) - 20) false false (bidx sh 0)) 10 0
  let s := blit s (edge p ((bh : Int) - 16) true false (bidx sh 1)) 0 8
  let s := blit s (edge p ((bh : Int) - 16) true true (bidx sh 2)) ((bw : Int) - 6) 8
  blit s (edge p ((bw : Int) - 20) false true (bidx sh 3)) 10 ((bh : Int) - 6)

/-- The hang-and-label stage of `RectButton._build` (lines 694–713 of the
source): `_hang` first when hanging, then the label blit at the position
computed from `self.size`. -/
def build (square : Bool) (p : List Color) (bw bh : Nat)
    (rc sh : List Bool) (hanging : Bool) (label : LSurface)
    (symbol : Bool) : LSurface :=
  let s := buildBody square p bw bh rc sh
  let pos := labelPos bw bh hanging symbol label.w label.h
  if hanging then blit (hang s bw bh) label pos.1 pos.2
  else blit s label pos.1 pos.2

/-- `RectButton.__init__` (and `SquareButton.__init__`, inherited): the
body is built 6px shorter when hanging (`self.size = (w, h - 6)`);
`pygame.Surface` raises on a negative resolution, modelled as `none`.
Then the palette is selected, the label composed, and `_build` run. -/
def make (square : Bool) (size : Nat × Nat) (hover unavailable : Bool)
    (rc sh : List Bool) (hanging : Bool)
    (glyphs : List (String × LSurface)) (fontRender : String → LSurface)
    (text : String) : Option LSurface :=
  let bh : Int := if hanging then (size.2 : Int) - 6 else (size.2 : Int)
  if bh < 0 then none
  else
    let p := selectPalette hover unavailable
    let lbl := buildText glyphs fontRender text
    some (build square p size.1 bh.toNat rc sh hanging lbl.1 lbl.2)

end RectButton

namespace Button

/-- `Button.new`: normalize the two style arguments (see
`buttonNewNormalize`), then build a `SquareButton` when the requested size
is square and a `RectButton` otherwise, returning its surface. -/
def new (size : Nat × Nat) (text : String) (hover unavailable : Bool)
    (rcArg shArg : PyStyleArg) (hanging : Bool)
    (glyphs : List (String × LSurface)) (fontRender : String → LSurface) :
    Except PyErr (Option LSurface) := do
  let rc ← buttonNewNormalize rcArg
  let sh ← buttonNewNormalize shArg
  pure (RectButton.make (decide (size.1 = size.2)) size hover unavailable
    rc sh hanging glyphs fontRender text)

end Button

/-- The pixel of an optional surface (used to compare the two renders of a
button; `RectButton.make` only returns `none` when surface creation
fails, identically for every palette). -/
def pxOf (o : Option LSurface) (x y : Nat) : Color :=
  (o.getD (alphaSurface 0 0)).px x y

/-! ## C9 — palette selection precedence -/

/-- C9: in `RectButton.__init__` the unavailable palette takes precedence
over hover; hover is selected only when unavailable is false, and the
default palette only when both flags are false. -/
theorem selectPalette_precedence :
    selectPalette true true = Palette.unavailable ∧
    selectPalette false true = Palette.unavailable ∧
    selectPalette true false = Palette.hover ∧
    selectPalette false false = Palette.palette :=
  ⟨rfl, rfl, rfl, rfl⟩

/-! ## C8 — idempotent glyph recoloring -/

/-- C8: rewriting every opaque-black pixel to the accent color twice gives
the same image as doing it once, provided the accent color is not opaque
black. -/
theorem replaceColor_idempotent (s : LSurface) (c : Color)
    (hc : c ≠ Color.black) :
    replaceColor (replaceColor s Color.black c) Color.black c
      = replaceColor s Color.black c := by
  unfold replaceColor
  congr 1
  funext i j
  by_cases h : s.px i j = Color.black
  · simp [h, hc]
  · simp [h]

/-- Witness for C8 at a concrete one-pixel image and the accent color
actually configured in the module. -/
theorem replaceColor_idempotent_witness :
    replaceColor (replaceColor (plainSurface 1 1) Color.black accentColor)
        Color.black accentColor
      = replaceColor (plainSurface 1 1) Color.black accentColor :=
  replaceColor_idempotent (plainSurface 1 1) accentColor (by decide)

/-! ## C2 — `Button.new` style-argument validation -/

/-- C2 (code bug): a list of length 3 passed as `rounded_corners` or
`shadows` sails through the validation block of `Button.new` without any
exception — the guard reads `not isinstance(arg, list) and len(arg) != 4`,
which is false for every list — so no invalid-argument failure is raised
before drawing begins (a length-3 list later dies with an `IndexError`
in the middle of `_build`, after surfaces have been constructed). -/
theorem buttonNew_accepts_short_list :
    buttonNewNormalize (.plist [true, true, true])
        = .ok [true, true, true] ∧
    buttonNewNormalize (.plist []) = .ok [] :=
  ⟨rfl, rfl⟩

/-! ## C4 — cache correctness -/

/-- C4 counterexample: when an entry with the same seven-field descriptor
is already in the cache, `store_button` appends behind it and the linear
scan of `load_button` returns the **earlier** image, not the one just
stored. -/
theorem buttonCache_store_then_lookup_not_new :
    ButtonCache.loadButton
        (ButtonCache.storeButton
          [(uiLookupKey (10, 10) "", (0 : Nat))] (uiLookupKey (10, 10) "") 1).1
        (uiLookupKey (10, 10) "")
      = some 0 ∧
    (some 0 : Option Nat) ≠ some 1 := by
  constructor
  · rfl
  · decide

/-- C4 amended: if no entry with descriptor `d` is stored yet, a lookup
right after `store(d, img)` returns `img`; a lookup on a descriptor that
differs from every stored descriptor in at least one field returns the
absent sentinel; and `store` returns the stored image unchanged. -/
theorem buttonCache_store_lookup (α : Type)
    (storage : List (ButtonKey × α)) (d : ButtonKey) (img : α)
    (hfresh : ∀ e ∈ storage, e.1 ≠ d) :
    ButtonCache.loadButton (ButtonCache.storeButton storage d img).1 d
        = some img ∧
    ButtonCache.loadButton storage d = none ∧
    (ButtonCache.storeButton storage d img).2 = img := by
  have hnone : storage.find? (fun e => decide (e.1 = d)) = none := by
    rw [List.find?_eq_none]
    intro e he
    simpa using hfresh e he
  refine ⟨?_, ?_, rfl⟩
  · unfold ButtonCache.storeButton ButtonCache.loadButton
    rw [List.find?_append, hnone]
    simp
  · unfold ButtonCache.loadButton
    rw [hnone]
    rfl

/-- Witness for C4 at the empty cache and a concrete descriptor/image. -/
theorem buttonCache_store_lookup_witness :
    ButtonCache.loadButton
        (ButtonCache.storeButton ([] : List (ButtonKey × Nat))
          (uiLookupKey (40, 40) "Attack") 7).1
        (uiLookupKey (40, 40) "Attack")
      = some 7 ∧
    ButtonCache.loadButton ([] : List (ButtonKey × Nat))
        (uiLookupKey (40, 40) "Attack") = none :=
  ⟨(buttonCache_store_lookup Nat [] (uiLookupKey (40, 40) "Attack") 7
      (by intro e he; cases he)).1,
   (buttonCache_store_lookup Nat [] (uiLookupKey (40, 40) "Attack") 7
      (by intro e he; cases he)).2.1⟩

/-! ## C1 — the facade's cache key -/

/-- C1 (code bug): `UIButton.__init__` looks the cache up with only `size`
and `text` — defaults for the five style fields — yet stores under the
style resolved by `_Style`.  With a style table that marks `"#x"` as
hanging, the key used by the lookup differs from the key used by the
store, and a second construction of the very same button misses the entry
the first construction just stored, composites again, and appends a
duplicate entry. -/
theorem uiButton_lookup_store_key_mismatch :
    uiLookupKey (30, 20) "hi"
        ≠ uiStoreKey (30, 20) "hi"
            (checkRound [] (some "#x")) (checkShadow [] (some "#x"))
            (checkHanging [("#x", true)] (some "#x")) ∧
    ((uiButtonConstruct (fun _ => (0 : Nat)) [] [] [("#x", true)]
        [] (30, 20) "hi" "" (some "#x")).1).length = 1 ∧
    ((uiButtonConstruct (fun _ => (0 : Nat)) [] [] [("#x", true)]
        (uiButtonConstruct (fun _ => (0 : Nat)) [] [] [("#x", true)]
          [] (30, 20) "hi" "" (some "#x")).1
        (30, 20) "hi" "" (some "#x")).1).length = 2 := by
  refine ⟨by decide, rfl, rfl⟩

/-! ## C3 — size contract -/

/-- Width of `RectButton._build`'s result: always the body width. -/
theorem build_w (square : Bool) (p : List Color) (bw bh : Nat)
    (rc sh : List Bool) (hanging : Bool) (label : LSurface) (symbol : Bool) :
    (RectButton.build square p bw bh rc sh hanging label symbol).w = bw := by
  cases hanging <;> rfl

/-- Height of `RectButton._build`'s result without hanging: the body
height. -/
theorem build_h_nohang (square : Bool) (p : List Color) (bw bh : Nat)
    (rc sh : List Bool) (label : LSurface) (symbol : Bool) :
    (RectButton.build square p bw bh rc sh false label symbol).h = bh := rfl

/-- Height of `RectButton._build`'s result with hanging: the body height
plus the 6px rope band. -/
theorem build_h_hang (square : Bool) (p : List Color) (bw bh : Nat)
    (rc sh : List Bool) (label : LSurface) (symbol : Bool) :
    (RectButton.build square p bw bh rc sh true label symbol).h = bh + 6 :=
  rfl

/-- C3 counterexample: for the requested size `(10, 3)` — width ≥ 1 and
height ≥ 1 — with `hanging` set, `RectButton.__init__` computes the body
size `(10, -3)` and `pygame.Surface` raises instead of returning a
surface of the requested dimensions. -/
theorem rectButton_hanging_small_height_fails :
    RectButton.make false (10, 3) false false defaultRounded defaultShadows
        true [] (fun _ => alphaSurface 0 0) "" = none := rfl

/-- C3 amended: without `hanging` the returned surface has exactly the
requested dimensions for every size; with `hanging` the same holds
provided the height is at least 6 (smaller heights fail surface creation,
since the body is built 6 pixels shorter), and `_hang` extends the body
canvas by exactly 6 pixels. -/
theorem rectButton_size_contract (square : Bool) (w h : Nat)
    (hover unavailable : Bool) (rc sh : List Bool)
    (glyphs : List (String × LSurface)) (fr : String → LSurface)
    (text : String) :
    ((RectButton.make square (w, h) hover unavailable rc sh false glyphs fr
        text).map (fun s => (s.w, s.h)) = some (w, h))
    ∧ (6 ≤ h →
        (RectButton.make square (w, h) hover unavailable rc sh true glyphs fr
          text).map (fun s => (s.w, s.h)) = some (w, h))
    ∧ (∀ (body : LSurface) (bw bh : Nat),
        (RectButton.hang body bw bh).w = bw
        ∧ (RectButton.hang body bw bh).h = bh + 6) := by
  refine ⟨?_, ?_, fun body bw bh => ⟨rfl, rfl⟩⟩
  · have h0 : ¬ ((h : Int) < 0) := by omega
    simp only [RectButton.make, Bool.false_eq_true, if_false, if_neg h0,
      Option.map_some', Option.some.injEq, Prod.mk.injEq]
    refine ⟨build_w _ _ _ _ _ _ _ _ _, ?_⟩
    rw [build_h_nohang]
    omega
  · intro hh
    have h0 : ¬ ((h : Int) - 6 < 0) := by omega
    simp only [RectButton.make, if_true, if_neg h0,
      Option.map_some', Option.some.injEq, Prod.mk.injEq]
    refine ⟨build_w _ _ _ _ _ _ _ _ _, ?_⟩
    rw [build_h_hang]
    omega

/-- Witness for C3 at the concrete sizes `(30, 20)`, hanging and not. -/
theorem rectButton_size_contract_witness :
    ((RectButton.make false (30, 20) false false defaultRounded
        defaultShadows false [] (fun _ => alphaSurface 0 0) "").map
        (fun s => (s.w, s.h)) = some (30, 20))
    ∧ ((RectButton.make false (30, 20) false false defaultRounded
        defaultShadows true [] (fun _ => alphaSurface 0 0) "").map
        (fun s => (s.w, s.h)) = some (30, 20)) :=
  ⟨(rectButton_size_contract false 30 20 false false defaultRounded
      defaultShadows [] (fun _ => alphaSurface 0 0) "").1,
   (rectButton_size_contract false 30 20 false false defaultRounded
      defaultShadows [] (fun _ => alphaSurface 0 0) "").2.1 (by decide)⟩

/-! ## C5 — label placement -/

/-- C5 counterexample: a 10px-wide label in a 40px-wide default-state
button is blitted with its left edge at x = 16, while exact horizontal
centering would put it at x = 15 — the non-symbol cases carry a +1px
rightward bias, so the label is **not** centered horizontally always. -/
theorem label_not_centered_horizontally :
    (labelPos 40 40 false false 10 10).1 = 16
    ∧ ((40 : Int) - 10) / 2 = 15
    ∧ (labelPos 40 40 false false 10 10).1 ≠ ((40 : Int) - 10) / 2 := by
  refine ⟨by decide, by decide, by decide⟩

/-- C5 amended: the label's center lands at the body center plus a +1px
rightward bias horizontally and a +2px downward bias vertically in the
default case, plus an additional 6px downward when hanging; only a
single-glyph label that is **not** hanging is placed exactly at the body
center with no bias (when hanging, the hanging placement wins even for a
single glyph).  All centers are in pygame's floor arithmetic. -/
theorem labelPos_placement (bw bh tw th : Nat) (hanging symbol : Bool) :
    (hanging = true →
      (labelPos bw bh hanging symbol tw th).1 + (tw : Int) / 2
          = (bw : Int) / 2 + 1
      ∧ (labelPos bw bh hanging symbol tw th).2 + (th : Int) / 2
          = (bh : Int) / 2 + 2 + 6)
    ∧ (hanging = false → symbol = true →
      (labelPos bw bh hanging symbol tw th).1 + (tw : Int) / 2
          = (bw : Int) / 2
      ∧ (labelPos bw bh hanging symbol tw th).2 + (th : Int) / 2
          = (bh : Int) / 2)
    ∧ (hanging = false → symbol = false →
      (labelPos bw bh hanging symbol tw th).1 + (tw : Int) / 2
          = (bw : Int) / 2 + 1
      ∧ (labelPos bw bh hanging symbol tw th).2 + (th : Int) / 2
          = (bh : Int) / 2 + 2) := by
  refine ⟨?_, ?_, ?_⟩
  · rintro rfl
    simp only [labelPos, if_true]
    constructor <;> ring
  · rintro rfl rfl
    simp [labelPos]
  · rintro rfl rfl
    simp [labelPos]

/-- Witness for C5 at a 10×10 label in a 40×40 default-state body. -/
theorem labelPos_placement_witness :
    (labelPos 40 40 false false 10 10).1 + (10 : Int) / 2
        = (40 : Int) / 2 + 1
    ∧ (labelPos 40 40 false false 10 10).2 + (10 : Int) / 2
        = (40 : Int) / 2 + 2 :=
  (labelPos_placement 40 40 10 10 false false).2.2 rfl rfl

/-! ## C7 — symbol short-circuit -/

/-- C7: a label that exactly matches a known glyph token makes
`_build_text` return the very image stored in the glyph library (and set
the symbol flag), skipping line splitting, tokenization and font
rasterization entirely — the result does not depend on the font
rasterizer at all. -/
theorem buildText_symbol_shortcircuit (glyphs : List (String × LSurface))
    (fr : String → LSurface) (text : String) (g : LSurface)
    (hg : tblGet glyphs text = some g) :
    RectButton.buildText glyphs fr text = (g, true) := by
  unfold RectButton.buildText
  rw [hg]

/-- Witness for C7: a one-entry glyph library holding `{DICE}`. -/
theorem buildText_symbol_shortcircuit_witness :
    RectButton.buildText [("\x7bDICE\x7d", alphaSurface 16 16)]
        (fun _ => alphaSurface 0 0) "\x7bDICE\x7d"
      = (alphaSurface 16 16, true) :=
  buildText_symbol_shortcircuit [("\x7bDICE\x7d", alphaSurface 16 16)]
    (fun _ => alphaSurface 0 0) "\x7bDICE\x7d" (alphaSurface 16 16) rfl

/-! ## C10 — rope palette invariance -/

/-- Blitting the same source at the same offset onto destinations of equal
dimensions gives equal pixels wherever the destinations agree. -/
theorem blit_px_congr (d1 d2 src : LSurface) (ox oy : Int) (x y : Nat)
    (hw : d1.w = d2.w) (hh : d1.h = d2.h) (hpx : d1.px x y = d2.px x y) :
    (blit d1 src ox oy).px x y = (blit d2 src ox oy).px x y := by
  unfold blit
  simp only [hw, hh, hpx]

/-- Width of `_hang`'s result: the body width. -/
theorem hang_w (body : LSurface) (bw bh : Nat) :
    (RectButton.hang body bw bh).w = bw := rfl

/-- Height of `_hang`'s result: the body height plus the 6px band. -/
theorem hang_h (body : LSurface) (bw bh : Nat) :
    (RectButton.hang body bw bh).h = bh + 6 := rfl

/-- The 6px top band produced by `_hang` does not depend on the body
surface blitted below it: the body lands at `(0, 6)` and the two
connectors are drawn from the fixed default palette. -/
theorem hang_px_congr (b1 b2 : LSurface) (bw bh : Nat) (x y : Nat)
    (hy : y < 6) :
    (RectButton.hang b1 bw bh).px x y = (RectButton.hang b2 bw bh).px x y := by
  simp only [RectButton.hang]
  refine blit_px_congr _ _ _ _ _ _ _ ?_ ?_ ?_
  · rfl
  · rfl
  refine blit_px_congr _ _ _ _ _ _ _ ?_ ?_ ?_
  · rfl
  · rfl
  simp only [blit]
  rw [if_neg, if_neg]
  · intro hc
    have h6 := hc.2.2.2.2.1
    omega
  · intro hc
    have h6 := hc.2.2.2.2.1
    omega

/-- The top band of a hanging button's composited surface is the same for
every palette: the body chain lands below it and the label placement does
not depend on the palette. -/
theorem build_top_band_palette_indep (square : Bool) (p q : List Color)
    (bw bh : Nat) (rc sh : List Bool) (lbl : LSurface) (sym : Bool)
    (x y : Nat) (hy : y < 6) :
    (RectButton.build square p bw bh rc sh true lbl sym).px x y
      = (RectButton.build square q bw bh rc sh true lbl sym).px x y := by
  simp only [RectButton.build, if_true]
  refine blit_px_congr _ _ _ _ _ _ _ ?_ ?_ ?_
  · rw [hang_w, hang_w]
  · rw [hang_h, hang_h]
  exact hang_px_congr _ _ _ _ _ _ hy

/-- C10: for every hanging button, the pixels of the 6px rope band
(rows `y < 6`) of the hover or unavailable render equal those of the
default render — the two styles can differ only in the body below the
band — and the 10×6 rope connector itself carries the **default**
palette's inline, shadow and fill tones. -/
theorem hanging_top_band_state_invariant (square : Bool) (w h : Nat)
    (hover unavailable : Bool) (rc sh : List Bool)
    (glyphs : List (String × LSurface)) (fr : String → LSurface)
    (text : String) (x y : Nat) (hy : y < 6) :
    pxOf (RectButton.make square (w, h) hover unavailable rc sh true glyphs
        fr text) x y
      = pxOf (RectButton.make square (w, h) false false rc sh true glyphs
        fr text) x y
    ∧ RectButton.connector.px 0 0 = pidx Palette.palette 2
    ∧ RectButton.connector.px 2 0 = pidx Palette.palette 4
    ∧ RectButton.connector.px 4 0 = pidx Palette.palette 3 := by
  refine ⟨?_, by decide, by decide, by decide⟩
  simp only [pxOf, RectButton.make]
  by_cases hneg : ((h : Int) - 6) < 0
  · simp [hneg]
  · simp only [if_true, if_neg hneg, Option.getD_some]
    exact build_top_band_palette_indep square
      (selectPalette hover unavailable) (selectPalette false false)
      w ((h : Int) - 6).toNat rc sh
      (RectButton.buildText glyphs fr text).1
      (RectButton.buildText glyphs fr text).2 x y hy

/-- Witness for C10: the hover and default renders of a concrete hanging
button agree on a concrete top-band pixel. -/
theorem hanging_top_band_state_invariant_witness :
    pxOf (RectButton.make false (30, 20) true false defaultRounded
        defaultShadows true [] (fun _ => alphaSurface 0 0) "") 12 0
      = pxOf (RectButton.make false (30, 20) false false defaultRounded
        defaultShadows true [] (fun _ => alphaSurface 0 0) "") 12 0 :=
  (hanging_top_band_state_invariant false 30 20 true false defaultRounded
    defaultShadows [] (fun _ => alphaSurface 0 0) "" 12 0 (by decide)).1

/-! ## C6 — the edge strip -/

/-- For positive lengths the parity check `round(length/2) != int(length/2)`
of `_edge` holds exactly when `length ≡ 3 (mod 4)`: Python's `round` is
half-to-even, so an odd length whose half rounds down — `length ≡ 1
(mod 4)` — passes the check unnoticed. -/
theorem roundHalf_truncHalf_mismatch (len : Int) (hpos : 0 < len) :
    (roundHalf len ≠ truncHalf len) ↔ len % 4 = 3 := by
  simp only [roundHalf, truncHalf]
  split_ifs <;> omega

/-- Pixels of the horizontal (unrotated, unflipped) edge strip within the
requested length: rows 0–1 outline, rows 2–3 inline, rows 4–5 fill or
shadow. -/
theorem edge_base_px (p : List Color) (len : Int) (shadow : Bool)
    (hpos : 0 < len) (x y : Nat) (hx : (x : Int) < len) (hy : y < 6) :
    (RectButton.edge p len false false shadow).px x y
      = if y < 2 then pidx p 1 else if y < 4 then pidx p 2
        else if shadow then pidx p 4 else pidx p 3 := by
  have hiff := roundHalf_truncHalf_mismatch len hpos
  by_cases hm : roundHalf len ≠ truncHalf len
  · have hle : ¬ (len + 1 ≤ 0) := by omega
    cases shadow <;>
      · simp only [RectButton.edge, hm, hle, eq_self_iff_true, and_true,
          true_and, if_true, if_false, Bool.false_eq_true, false_and,
          and_false, drawRect, alphaSurface]
        split_ifs <;> first | rfl | (exfalso; omega)
  · have hle : ¬ (len ≤ 0) := by omega
    cases shadow <;>
      · simp only [RectButton.edge, hm, hle, eq_self_iff_true, and_true,
          true_and, if_true, if_false, Bool.false_eq_true, false_and,
          and_false, drawRect, alphaSurface]
        split_ifs <;> first | rfl | (exfalso; omega)

/-- When the padding fires (`len % 4 = 3`, horizontal edge), the padding
column `x = len` carries the outline color in the outline band but is
trimmed — left transparent — in the inline and fill bands. -/
theorem edge_pad_px (p : List Color) (len : Int) (shadow : Bool)
    (hpos : 0 < len) (h4 : len % 4 = 3) :
    (RectButton.edge p len false false shadow).px len.toNat 0 = pidx p 1
    ∧ (RectButton.edge p len false false shadow).px len.toNat 2 = Color.clear
    ∧ (RectButton.edge p len false false shadow).px len.toNat 4
        = Color.clear := by
  have hm : roundHalf len ≠ truncHalf len :=
    (roundHalf_truncHalf_mismatch len hpos).mpr h4
  have hle : ¬ (len + 1 ≤ 0) := by omega
  refine ⟨?_, ?_, ?_⟩ <;>
    · cases shadow <;>
        · simp only [RectButton.edge, hm, hle, eq_self_iff_true, and_true,
            true_and, if_true, if_false, Bool.false_eq_true, false_and,
            and_false, drawRect, alphaSurface]
          split_ifs <;> first | rfl | (exfalso; omega)

/-- Pixels of the vertical (rotated, unflipped) edge strip: columns 0–1
outline, 2–3 inline, 4–5 fill or shadow, across the whole requested
length — no padding and no trimming happen when `rotate` is set. -/
theorem edge_rot_px (p : List Color) (len : Int) (shadow : Bool)
    (hpos : 0 < len) (x y : Nat) (hx : x < 6) (hy : (y : Int) < len) :
    (RectButton.edge p len true false shadow).px x y
      = if x < 2 then pidx p 1 else if x < 4 then pidx p 2
        else if shadow then pidx p 4 else pidx p 3 := by
  have hle : ¬ (len ≤ 0) := by omega
  cases shadow <;>
    · simp only [RectButton.edge, hle, eq_self_iff_true, and_true, true_and,
        if_true, if_false, Bool.true_eq_false, Bool.false_eq_true, false_and,
        and_false, drawRect, alphaSurface, rot90]
      split_ifs <;> first | rfl | (exfalso; omega)

/-- C6 counterexample: the requested length 5 is odd, yet the horizontal
edge strip comes back 5px long, not padded to 6 — `round(5/2) = 2 =
int(5/2)` under Python's half-to-even rounding — and a rotated (vertical)
edge of odd length 3 comes back 3px long because the padding branch is
guarded by `if not rotate`. -/
theorem edge_odd_length_not_padded :
    (RectButton.edge Palette.palette 5 false false false).w = 5
    ∧ (RectButton.edge Palette.palette 5 false false false).w ≠ 6
    ∧ (RectButton.edge Palette.palette 3 true false false).h = 3
    ∧ (RectButton.edge Palette.palette 3 true false false).h ≠ 4 := by
  refine ⟨by decide, by decide, by decide, by decide⟩

/-- C6 amended: `_edge` produces a 3-band outline/inline/fill-or-shadow
strip of the requested length, rotated 90° for vertical edges and flipped
for trailing edges; but the 1px padding applies only to horizontal
(unrotated) edges and only when `round(length/2) != int(length/2)`, which
for positive lengths means `length ≡ 3 (mod 4)` — Python's half-to-even
rounding misses odd lengths `≡ 1 (mod 4)` — with the padding column
trimmed from the inline and fill bands; vertical (rotated) edges are never
padded, odd length or not. -/
theorem edge_strip_structure (p : List Color) (len : Int)
    (flip shadow : Bool) (hpos : 0 < len) :
    ((RectButton.edge p len false flip shadow).w
        = (if len % 4 = 3 then len + 1 else len).toNat
      ∧ (RectButton.edge p len false flip shadow).h = 6)
    ∧ ((RectButton.edge p len true flip shadow).w = 6
      ∧ (RectButton.edge p len true flip shadow).h = len.toNat)
    ∧ (∀ x y : Nat, (x : Int) < len → y < 6 →
        (RectButton.edge p len false false shadow).px x y
          = if y < 2 then pidx p 1 else if y < 4 then pidx p 2
            else if shadow then pidx p 4 else pidx p 3)
    ∧ (len % 4 = 3 →
        (RectButton.edge p len false false shadow).px len.toNat 0 = pidx p 1
        ∧ (RectButton.edge p len false false shadow).px len.toNat 2
            = Color.clear
        ∧ (RectButton.edge p len false false shadow).px len.toNat 4
            = Color.clear)
    ∧ (∀ x y : Nat, x < 6 → (y : Int) < len →
        (RectButton.edge p len true false shadow).px x y
          = if x < 2 then pidx p 1 else if x < 4 then pidx p 2
            else if shadow then pidx p 4 else pidx p 3)
    ∧ RectButton.edge p len false true shadow
        = flipS (RectButton.edge p len false false shadow) false true
    ∧ RectButton.edge p len true true shadow
        = flipS (RectButton.edge p len true false shadow) true false := by
  have hle : ¬ (len ≤ 0) := by omega
  have hrw : (roundHalf len ≠ truncHalf len) = (len % 4 = 3) :=
    propext (roundHalf_truncHalf_mismatch len hpos)
  refine ⟨⟨?_, ?_⟩, ⟨?_, ?_⟩,
    fun x y hx hy => edge_base_px p len shadow hpos x y hx hy,
    fun h4 => edge_pad_px p len shadow hpos h4,
    fun x y hx hy => edge_rot_px p len shadow hpos x y hx hy, rfl, rfl⟩
  · cases flip <;> cases shadow <;>
      · simp only [RectButton.edge, hrw, hle, eq_self_iff_true, and_true,
          true_and, if_true, if_false, Bool.false_eq_true, Bool.true_eq_false,
          false_and, and_false, flipS, drawRect, alphaSurface]
        split_ifs <;> first | rfl | omega
  · cases flip <;> cases shadow <;> rfl
  · cases flip <;> cases shadow <;>
      simp only [RectButton.edge, hrw, hle, eq_self_iff_true, and_true,
        true_and, if_true, if_false, Bool.false_eq_true, Bool.true_eq_false,
        false_and, and_false, flipS, rot90, drawRect, alphaSurface]
  · cases flip <;> cases shadow <;>
      simp only [RectButton.edge, hrw, hle, eq_self_iff_true, and_true,
        true_and, if_true, if_false, Bool.false_eq_true, Bool.true_eq_false,
        false_and, and_false, flipS, rot90, drawRect, alphaSurface]

/-- Witness for C6 at the concrete length 8 (shadowed, then plain): the
strip is 8px wide and 6px tall, an outline pixel, an inline pixel and a
shadow pixel sit in their bands, and a rotated strip of length 8 is 6×8
with full-length bands. -/
theorem edge_strip_structure_witness :
    (RectButton.edge Palette.palette 8 false false true).w = 8
    ∧ (RectButton.edge Palette.palette 8 false false true).h = 6
    ∧ (RectButton.edge Palette.palette 8 false false true).px 3 0
        = pidx Palette.palette 1
    ∧ (RectButton.edge Palette.palette 8 false false true).px 3 2
        = pidx Palette.palette 2
    ∧ (RectButton.edge Palette.palette 8 false false true).px 3 4
        = pidx Palette.palette 4
    ∧ (RectButton.edge Palette.palette 8 true false true).w = 6
    ∧ (RectButton.edge Palette.palette 8 true false true).h = 8
    ∧ (RectButton.edge Palette.palette 8 true false true).px 4 7
        = pidx Palette.palette 4 := by
  have h := edge_strip_structure Palette.palette 8 false true (by decide)
  refine ⟨?_, h.1.2, ?_, ?_, ?_, h.2.1.1, ?_, ?_⟩
  · rw [h.1.1]
    decide
  · rw [h.2.2.1 3 0 (by decide) (by decide)]
    decide
  · rw [h.2.2.1 3 2 (by decide) (by decide)]
    decide
  · rw [h.2.2.1 3 4 (by decide) (by decide)]
    decide
  · rw [h.2.1.2]
    decide
  · rw [h.2.2.2.2.1 4 7 (by decide) (by decide)]
    decide
